import Mathlib

/-
  Verification of the authentication core of the express-mongo-api repository.

  The embedding below translates the repository's authentication code:
  - `authService.js` (README.md §3): `hashPassword`, `comparePasswords`,
    `generateToken`;
  - `authMiddleware.js` (README.md §4): `authenticateUser`;
  - `User.js` (README.md §2): the user schema and its `toJSON` transform;
  - `controllers/userController.js`: `registerUser`, `loginUser`, `getProfile`.

  External libraries (bcryptjs, jsonwebtoken) are modelled from the spec's
  contracts for the Credential Hasher, Token Issuer and Token Verifier,
  keeping the cryptographic primitives (the bcrypt key-derivation and the
  HMAC) abstract as function parameters, since no property here depends on
  their internals.
-/

/-- The identity claim signed into a session token: the user's durable id and
email (`generateToken` signs `\x7b id: user._id, email: user.email \x7d`). -/
structure IdentityClaim where
  id : String
  email : String
deriving DecidableEq, Repr

/-- A signed token payload: the identity claim plus issued-at and expires-at
timestamps in seconds, as jsonwebtoken adds `iat` and `exp`. -/
structure Payload where
  claim : IdentityClaim
  iat : Nat
  exp : Nat
deriving DecidableEq, Repr

/-- A session token: its payload together with the MAC signature computed over
that payload. -/
structure Token where
  payload : Payload
  sig : String
deriving DecidableEq, Repr

/-- A symmetric MAC scheme, mapping a secret and a payload to a tag.  The
source uses HMAC-SHA-256 (`algorithm: "HS256"`); nothing proved here depends
on the concrete function, so it stays a parameter. -/
def Mac : Type := String → Payload → String

/-- Failures of token issuance; per the spec, signing fails only on a
missing/empty secret. -/
inductive SignError where
  | missingSecret
deriving DecidableEq, Repr

/-- Failures of token verification, the spec's `Malformed`,
`InvalidSignature` and `Expired`, plus the missing-secret misconfiguration. -/
inductive VerifyError where
  | malformed
  | invalidSignature
  | expired
  | missingSecret
deriving DecidableEq, Repr

/-- The human-readable message jsonwebtoken attaches to each failure; the
middleware copies it into the response's `error` field. -/
def VerifyError.message : VerifyError → String
  | .malformed => "jwt malformed"
  | .invalidSignature => "invalid signature"
  | .expired => "jwt expired"
  | .missingSecret => "secret or public key must be provided"

/-- Modelled from the spec: the external jsonwebtoken `sign` as contracted in
§4.2 (Token Issuer).  The signed payload is exactly the claim plus `iat = now`
and `exp = now + ttl`; signing fails only when the secret is empty. -/
def jwtSign (mac : Mac) (claim : IdentityClaim) (secret : String)
    (now ttl : Nat) : Except SignError Token :=
  if secret = "" then .error .missingSecret
  else .ok ⟨⟨claim, now, now + ttl⟩, mac secret ⟨claim, now, now + ttl⟩⟩

/-- Modelled from the spec: the external jsonwebtoken `verify` as contracted
in §4.3 (Token Verifier): recompute the signature and reject on mismatch,
reject with `Expired` when the expiry has passed, and otherwise return the
decoded payload unchanged. -/
def jwtVerify (mac : Mac) (tok : Token) (secret : String) (now : Nat) :
    Except VerifyError Payload :=
  if secret = "" then .error .missingSecret
  else if tok.sig = mac secret tok.payload then
    if tok.payload.exp ≤ now then .error .expired
    else .ok tok.payload
  else .error .invalidSignature

/-- `generateToken` from authService.js: sign `\x7b id, email \x7d` with the
configured secret and a one-hour expiry (`expiresIn: "1h"`). -/
def generateToken (mac : Mac) (userId userEmail secret : String) (now : Nat) :
    Except SignError Token :=
  jwtSign mac ⟨userId, userEmail⟩ secret now 3600

/-- C1: verifying the token produced by issuing a claim `c` with a non-empty
secret `s`, under the same secret and at any clock before the ttl elapses,
succeeds and returns the decoded payload — in particular the identity claim
`c` — unchanged. -/
theorem token_roundtrip (mac : Mac) (c : IdentityClaim) (s : String)
    (now ttl clock : Nat) (hs : s ≠ "") (hc : clock < now + ttl) :
    jwtSign mac c s now ttl =
      .ok ⟨⟨c, now, now + ttl⟩, mac s ⟨c, now, now + ttl⟩⟩ ∧
    jwtVerify mac ⟨⟨c, now, now + ttl⟩, mac s ⟨c, now, now + ttl⟩⟩ s clock =
      .ok ⟨c, now, now + ttl⟩ := by
  constructor
  · simp [jwtSign, hs]
  · simp [jwtVerify, hs]
    omega

/-- An example MAC used to instantiate the roundtrip at concrete inputs. -/
def exampleMac : Mac :=
  fun secret p => secret ++ "/" ++ p.claim.id ++ "/" ++ toString p.exp

/-- An example identity claim. -/
def exampleClaim : IdentityClaim := ⟨"u1", "john@example.com"⟩

/-- Witness for C1, at `secret = "k"`, issuance time 0, ttl 3600, clock 1. -/
theorem token_roundtrip_witness :
    jwtSign exampleMac exampleClaim "k" 0 3600 =
      .ok ⟨⟨exampleClaim, 0, 3600⟩, exampleMac "k" ⟨exampleClaim, 0, 3600⟩⟩ ∧
    jwtVerify exampleMac ⟨⟨exampleClaim, 0, 3600⟩,
        exampleMac "k" ⟨exampleClaim, 0, 3600⟩⟩ "k" 1 =
      .ok ⟨exampleClaim, 0, 3600⟩ :=
  token_roundtrip exampleMac exampleClaim "k" 0 3600 1 (by decide) (by decide)

/-- The bcrypt key-derivation, mapping a plaintext, a salt and a cost factor
to a digest.  Kept abstract: the claims below concern the structure of
hashing and comparison, not the derivation's internals. -/
def Derive : Type := String → Nat → Nat → String

/-- A bcrypt hash value: the cost factor and salt travel inside the hash
alongside the derived digest (the `$2a$cost$saltdigest` format). -/
structure CredentialHash where
  cost : Nat
  salt : Nat
  digest : String
deriving DecidableEq, Repr

/-- A stored password-hash string as the database holds it: either a
well-formed bcrypt hash or an arbitrary malformed string. -/
inductive StoredHash where
  | valid (h : CredentialHash)
  | malformed (raw : String)
deriving DecidableEq, Repr

/-- Whether a stored hash is malformed. -/
def StoredHash.isMalformed : StoredHash → Bool
  | .valid _ => false
  | .malformed _ => true

/-- `hashPassword` from authService.js: `bcrypt.genSalt(10)` then
`bcrypt.hash(password, salt)`.  The freshly generated salt is passed in as a
parameter; the cost factor is the source's fixed 10 rounds. -/
def hashPassword (derive : Derive) (salt : Nat) (password : String) :
    CredentialHash :=
  ⟨10, salt, derive password salt 10⟩

/-- Modelled from the spec: `comparePasswords` from authService.js delegates
to the external `bcrypt.compare`, which per §4.1 re-derives a digest from the
plaintext using the salt and cost embedded in the stored hash and compares;
it returns false on mismatch and signals an error only on a malformed hash. -/
def comparePasswords (derive : Derive) (password : String) :
    StoredHash → Except String Bool
  | .valid h => .ok (derive password h.salt h.cost == h.digest)
  | .malformed _ => .error "Invalid salt version"

/-- C3: verifying a plaintext against the hash produced from that same
plaintext returns true, for any non-empty plaintext and any salt. -/
theorem verify_hash_roundtrip (derive : Derive) (salt : Nat) (p : String)
    (_hp : p ≠ "") :
    comparePasswords derive p (.valid (hashPassword derive salt p)) =
      .ok true := by
  simp [comparePasswords, hashPassword]

/-- An example derivation used to instantiate hasher claims concretely. -/
def exampleDerive : Derive :=
  fun pw salt cost => pw ++ "|" ++ toString salt ++ "|" ++ toString cost

/-- Witness for C3 at plaintext "123456" and salt 5. -/
theorem verify_hash_roundtrip_witness :
    comparePasswords exampleDerive "123456"
        (.valid (hashPassword exampleDerive 5 "123456")) = .ok true :=
  verify_hash_roundtrip exampleDerive 5 "123456" (by decide)

/-- C6: hashing the same plaintext under two distinct salts — and a fresh
random salt is generated on each call — yields two different credential
hashes, since the salt travels inside the hash. -/
theorem hash_salt_distinct (derive : Derive) (p : String) (s1 s2 : Nat)
    (hs : s1 ≠ s2) :
    hashPassword derive s1 p ≠ hashPassword derive s2 p := by
  intro hEq
  exact hs (congrArg CredentialHash.salt hEq)

/-- Witness for C6 at plaintext "123456" and salts 1 and 2. -/
theorem hash_salt_distinct_witness :
    hashPassword exampleDerive 1 "123456" ≠ hashPassword exampleDerive 2 "123456" :=
  hash_salt_distinct exampleDerive "123456" 1 2 (by decide)

/-- C7: password verification never signals an error on a mere mismatch — it
returns false — and it signals an error exactly when the stored hash is
malformed. -/
theorem compare_mismatch_returns_false (derive : Derive) (p : String) :
    (∀ h : CredentialHash, derive p h.salt h.cost ≠ h.digest →
        comparePasswords derive p (.valid h) = .ok false) ∧
    (∀ raw, comparePasswords derive p (.malformed raw) =
        .error "Invalid salt version") ∧
    (∀ sh msg, comparePasswords derive p sh = .error msg →
        sh.isMalformed = true) := by
  refine ⟨?_, ?_, ?_⟩
  · intro h hne
    simpa [comparePasswords] using hne
  · intro raw
    rfl
  · intro sh msg hm
    cases sh with
    | valid h => simp [comparePasswords] at hm
    | malformed raw => rfl

/-- Witness for C7: a concrete mismatch returns false, a concrete malformed
hash signals an error, and that erroring stored hash is indeed malformed. -/
theorem compare_mismatch_returns_false_witness :
    comparePasswords exampleDerive "a" (.valid ⟨10, 1, "zzz"⟩) = .ok false ∧
    comparePasswords exampleDerive "a" (.malformed "junk") =
      .error "Invalid salt version" ∧
    (StoredHash.malformed "junk").isMalformed = true :=
  ⟨(compare_mismatch_returns_false exampleDerive "a").1 ⟨10, 1, "zzz"⟩
      (by decide),
   (compare_mismatch_returns_false exampleDerive "a").2.1 "junk",
   (compare_mismatch_returns_false exampleDerive "a").2.2 (.malformed "junk")
      "Invalid salt version"
      ((compare_mismatch_returns_false exampleDerive "a").2.1 "junk")⟩

/-- JavaScript's `String.prototype.split` on a one-character separator, at the
character-list level: `"a b".split(" ") = ["a","b"]`, and a trailing
separator yields a trailing empty segment. -/
def splitChars (sep : Char) : List Char → List (List Char)
  | [] => [[]]
  | c :: cs =>
    if c = sep then [] :: splitChars sep cs
    else
      match splitChars sep cs with
      | [] => [[c]]
      | r :: rs => (c :: r) :: rs

/-- JavaScript's `split` on strings, via `splitChars`. -/
def jsSplit (s : String) (sep : Char) : List String :=
  (splitChars sep s.data).map List.asString

/-- JavaScript's `String.prototype.startsWith`. -/
def jsStartsWith (s pre : String) : Bool :=
  pre.data.isPrefixOf s.data

/-- The token the middleware extracts from an `Authorization` header value:
`authHeader.split(" ")[1]`.  When the header passes the `"Bearer "` check the
split always has a second element, so the default is never used. -/
def bearerToken (h : String) : String :=
  (jsSplit h ' ').getD 1 ""

/-- A token verifier over wire tokens: `jwt.verify` partially applied to the
configured `JWT_SECRET` and the ambient clock. -/
def Verifier : Type := String → Except VerifyError Payload

/-- The outcome of the authentication middleware: either a JSON rejection
response carrying a status, a `message` field and an `error` field, or
proceeding to the next handler with the decoded payload attached as
`req.user`. -/
inductive GuardResult where
  | reject (status : Nat) (message : String) (errDetail : String)
  | proceed (user : Payload)
deriving DecidableEq, Repr

/-- `authenticateUser` from authMiddleware.js: require the `Authorization`
header to start with `"Bearer "` (else 401 "Access Denied"), extract the
token by `split(" ")[1]`, delegate to `jwt.verify`, map any failure to 401
"Invalid Token" with the failure's message in the `error` field, and on
success attach the decoded payload and call `next()`. -/
def authenticateUser (vf : Verifier) (authHeader : Option String) :
    GuardResult :=
  match authHeader with
  | none => .reject 401 "Access Denied" "No token provided"
  | some h =>
    if jsStartsWith h "Bearer " then
      match vf (bearerToken h) with
      | .ok decoded => .proceed decoded
      | .error e => .reject 401 "Invalid Token" e.message
    else .reject 401 "Access Denied" "No token provided"

/-- C2: the Access Guard rejects with 401 "Access Denied" when the header is
absent or lacks the `"Bearer "` prefix; with the prefix present it delegates
the extracted token to the verifier, maps any verifier failure to a 401
rejection, and on success proceeds with the decoded identity claim attached. -/
theorem access_guard_spec :
    (∀ vf : Verifier, authenticateUser vf none =
        .reject 401 "Access Denied" "No token provided") ∧
    (∀ (vf : Verifier) (h : String), jsStartsWith h "Bearer " = false →
        authenticateUser vf (some h) =
          .reject 401 "Access Denied" "No token provided") ∧
    (∀ (vf : Verifier) (h : String) (e : VerifyError),
        jsStartsWith h "Bearer " = true → vf (bearerToken h) = .error e →
        authenticateUser vf (some h) = .reject 401 "Invalid Token" e.message) ∧
    (∀ (vf : Verifier) (h : String) (p : Payload),
        jsStartsWith h "Bearer " = true → vf (bearerToken h) = .ok p →
        authenticateUser vf (some h) = .proceed p) := by
  refine ⟨fun vf => rfl, ?_, ?_, ?_⟩
  · intro vf h hpre
    simp [authenticateUser, hpre]
  · intro vf h e hpre hvf
    simp [authenticateUser, hpre, hvf]
  · intro vf h p hpre hvf
    simp [authenticateUser, hpre, hvf]

/-- An example verifier that accepts exactly the wire token "a.b.c". -/
def exampleVerifier : Verifier :=
  fun s => if s = "a.b.c" then .ok ⟨exampleClaim, 0, 3600⟩
           else .error .malformed

/-- Witness for C2: a missing header and a `Token xyz` header are rejected
with "Access Denied", a bad token under a `Bearer ` header is rejected with
"Invalid Token", and a valid bearer token proceeds with its claim. -/
theorem access_guard_spec_witness :
    authenticateUser exampleVerifier none =
      .reject 401 "Access Denied" "No token provided" ∧
    authenticateUser exampleVerifier (some "Token xyz") =
      .reject 401 "Access Denied" "No token provided" ∧
    authenticateUser exampleVerifier (some "Bearer nope") =
      .reject 401 "Invalid Token" VerifyError.malformed.message ∧
    authenticateUser exampleVerifier (some "Bearer a.b.c") =
      .proceed ⟨exampleClaim, 0, 3600⟩ :=
  ⟨access_guard_spec.1 exampleVerifier,
   access_guard_spec.2.1 exampleVerifier "Token xyz" (by decide),
   access_guard_spec.2.2.1 exampleVerifier "Bearer nope" .malformed
      (by decide) rfl,
   access_guard_spec.2.2.2 exampleVerifier "Bearer a.b.c" ⟨exampleClaim, 0, 3600⟩
      (by decide) rfl⟩

/-- A verifier whose every verification fails with `Expired`. -/
def vfExpired : Verifier := fun _ => .error .expired

/-- A verifier whose every verification fails with `Malformed`. -/
def vfMalformed : Verifier := fun _ => .error .malformed

/-- Counterexample to C4: for the same request, an expired token and a
malformed token produce different guard responses — the `error` field carries
the verifier's specific failure message — so the surfaced response does leak
which failure occurred, beyond the generic "Invalid Token" message. -/
theorem guard_leaks_failure_detail :
    authenticateUser vfExpired (some "Bearer x.y.z") ≠
      authenticateUser vfMalformed (some "Bearer x.y.z") := by
  decide

/-- C4 as amended: every token-verification failure is mapped uniformly to a
single 401 rejection whose `message` field is the generic "Invalid Token",
but the rejection's `error` field carries the verifier's specific failure
message, which distinguishes expired from malformed tokens. -/
theorem guard_uniform_status_and_message (vf : Verifier) (h : String)
    (e : VerifyError) (hpre : jsStartsWith h "Bearer " = true)
    (hvf : vf (bearerToken h) = .error e) :
    authenticateUser vf (some h) = .reject 401 "Invalid Token" e.message := by
  simp [authenticateUser, hpre, hvf]

/-- Witness for the amended C4, at an expired-token verifier. -/
theorem guard_uniform_status_and_message_witness :
    authenticateUser vfExpired (some "Bearer x.y.z") =
      .reject 401 "Invalid Token" VerifyError.expired.message :=
  guard_uniform_status_and_message vfExpired "Bearer x.y.z" .expired
    (by decide) rfl

/-- A stored user record, per the User.js schema: name, unique email, the
stored password hash, and the `timestamps: true` metadata. -/
structure UserRecord where
  id : String
  name : String
  email : String
  password : StoredHash
  createdAt : Nat
  updatedAt : Nat
deriving DecidableEq, Repr

/-- `User.findOne(\x7b email \x7d)`: the first stored record with the given
email, if any. -/
def findByEmail (db : List UserRecord) (email : String) : Option UserRecord :=
  db.find? (fun u => u.email == email)

/-- `User.findById(id)`: the stored record with the given id, if any. -/
def findById (db : List UserRecord) (id : String) : Option UserRecord :=
  db.find? (fun u => u.id == id)

/-- Render a stored hash back to its database string form. -/
def StoredHash.render : StoredHash → String
  | .valid h => "$2a$" ++ toString h.cost ++ "$" ++ toString h.salt ++ h.digest
  | .malformed raw => raw

/-- The raw JSON fields of a user document, as key-value pairs, before any
transform: the schema fields plus the timestamp metadata. -/
def userToJsonRaw (u : UserRecord) : List (String × String) :=
  [("id", u.id), ("name", u.name), ("email", u.email),
   ("password", u.password.render),
   ("createdAt", toString u.createdAt), ("updatedAt", toString u.updatedAt)]

/-- The UserSchema `toJSON` transform: `delete ret.password`. -/
def toJSONTransform (fields : List (String × String)) :
    List (String × String) :=
  fields.filter (fun kv => kv.fst != "password")

/-- The `.select("-password")` projection used by `getProfile`: exclude the
password field from the fetched document. -/
def selectMinusPassword (fields : List (String × String)) :
    List (String × String) :=
  fields.filter (fun kv => kv.fst != "password")

/-- The body of an HTTP response: a `message`/`error` JSON object, a
serialized document, or the login payload of token plus user summary. -/
inductive RespBody where
  | message (m : String)
  | errorBody (e : String)
  | fields (fs : List (String × String))
  | login (tok : Token) (id name email : String)
deriving DecidableEq, Repr

/-- An HTTP response: status code and body. -/
structure Response where
  status : Nat
  body : RespBody
deriving DecidableEq, Repr

/-- The keys of a response's JSON document, when it carries one. -/
def Response.jsonKeys (r : Response) : List String :=
  match r.body with
  | .fields fs => fs.map Prod.fst
  | _ => []

/-- `registerUser` from userController.js: reject with 400 "User already
exists" when a record with the email is already stored; otherwise hash the
password, save the new user and answer 201.  The fresh Mongo id, the fresh
bcrypt salt and the clock are passed in as parameters. -/
def registerUser (derive : Derive) (db : List UserRecord)
    (name email password freshId : String) (freshSalt now : Nat) :
    Response × List UserRecord :=
  match findByEmail db email with
  | some _ => (⟨400, .message "User already exists"⟩, db)
  | none =>
      (⟨201, .message "User registered successfully"⟩,
       db ++ [⟨freshId, name, email,
              .valid (hashPassword derive freshSalt password), now, now⟩])

/-- `loginUser` from userController.js: 400 "Invalid credentials" when no
record has the email or the password comparison returns false; a thrown
comparison or signing error is caught as 500 "Error logging in"; on success,
200 with the generated token and the user summary. -/
def loginUser (derive : Derive) (mac : Mac) (db : List UserRecord)
    (email password secret : String) (now : Nat) : Response :=
  match findByEmail db email with
  | none => ⟨400, .message "Invalid credentials"⟩
  | some user =>
    match comparePasswords derive password user.password with
    | .error _ => ⟨500, .errorBody "Error logging in"⟩
    | .ok false => ⟨400, .message "Invalid credentials"⟩
    | .ok true =>
        match generateToken mac user.id user.email secret now with
        | .error _ => ⟨500, .errorBody "Error logging in"⟩
        | .ok tok => ⟨200, .login tok user.id user.name user.email⟩

/-- `getProfile` from userController.js: fetch the record by the id of the
authenticated request's user, 404 "User not found" when absent, otherwise 200
with the document serialized through `select("-password")` and the schema's
`toJSON` transform. -/
def getProfile (db : List UserRecord) (userId : String) : Response :=
  match findById db userId with
  | none => ⟨404, .message "User not found"⟩
  | some u => ⟨200, .fields (toJSONTransform (selectMinusPassword (userToJsonRaw u)))⟩

/-- The protected profile route: the authentication middleware runs first and
short-circuits with its rejection response; on success `getProfile` runs with
`req.user.id`, the id inside the decoded payload's claim. -/
def profileRoute (vf : Verifier) (db : List UserRecord)
    (authHeader : Option String) : Response :=
  match authenticateUser vf authHeader with
  | .reject status m _ => ⟨status, .message m⟩
  | .proceed decoded => getProfile db decoded.claim.id

/-- C5: the HTTP outcomes the controllers and middleware surface — 201 on
successful registration, 400 on a duplicate account, 400 on bad login
credentials (unknown email or a false password comparison), and 401 on a
missing, wrong-scheme, or verifier-rejected token. -/
theorem http_status_outcomes :
    (∀ (derive : Derive) (db : List UserRecord) (n em pw fid : String)
        (fs now : Nat), findByEmail db em = none →
        (registerUser derive db n em pw fid fs now).1.status = 201) ∧
    (∀ (derive : Derive) (db : List UserRecord) (n em pw fid : String)
        (fs now : Nat) (u : UserRecord), findByEmail db em = some u →
        (registerUser derive db n em pw fid fs now).1.status = 400) ∧
    (∀ (derive : Derive) (mac : Mac) (db : List UserRecord)
        (em pw secret : String) (now : Nat), findByEmail db em = none →
        (loginUser derive mac db em pw secret now).status = 400) ∧
    (∀ (derive : Derive) (mac : Mac) (db : List UserRecord)
        (em pw secret : String) (now : Nat) (u : UserRecord),
        findByEmail db em = some u →
        comparePasswords derive pw u.password = .ok false →
        (loginUser derive mac db em pw secret now).status = 400) ∧
    (∀ vf : Verifier, authenticateUser vf none =
        .reject 401 "Access Denied" "No token provided") ∧
    (∀ (vf : Verifier) (h : String), jsStartsWith h "Bearer " = false →
        authenticateUser vf (some h) =
          .reject 401 "Access Denied" "No token provided") ∧
    (∀ (vf : Verifier) (h : String) (er : VerifyError),
        jsStartsWith h "Bearer " = true → vf (bearerToken h) = .error er →
        authenticateUser vf (some h) =
          .reject 401 "Invalid Token" er.message) := by
  refine ⟨?_, ?_, ?_, ?_, fun vf => rfl, ?_, ?_⟩
  · intro derive db n em pw fid fs now hfind
    simp [registerUser, hfind]
  · intro derive db n em pw fid fs now u hfind
    simp [registerUser, hfind]
  · intro derive mac db em pw secret now hfind
    simp [loginUser, hfind]
  · intro derive mac db em pw secret now u hfind hcomp
    simp [loginUser, hfind, hcomp]
  · intro vf h hpre
    simp [authenticateUser, hpre]
  · intro vf h er hpre hvf
    simp [authenticateUser, hpre, hvf]

/-- The end-to-end example user of the spec's test scenario, as stored after
registration with salt 7 at time 100. -/
def sampleUser : UserRecord :=
  ⟨"u1", "John Doe", "john@example.com",
   .valid (hashPassword exampleDerive 7 "123456"), 100, 100⟩

/-- Witness for C5: fresh registration answers 201, re-registration of the
same email answers 400, login with an unknown email answers 400, login with a
wrong password answers 400, and the three guard rejections answer 401. -/
theorem http_status_outcomes_witness :
    (registerUser exampleDerive [] "John Doe" "john@example.com" "123456"
        "u1" 7 100).1.status = 201 ∧
    (registerUser exampleDerive [sampleUser] "John Doe" "john@example.com"
        "123456" "u2" 8 200).1.status = 400 ∧
    (loginUser exampleDerive exampleMac [] "john@example.com" "123456" "k"
        300).status = 400 ∧
    (loginUser exampleDerive exampleMac [sampleUser] "john@example.com"
        "wrong" "k" 300).status = 400 ∧
    authenticateUser exampleVerifier none =
      .reject 401 "Access Denied" "No token provided" ∧
    authenticateUser exampleVerifier (some "Token xyz") =
      .reject 401 "Access Denied" "No token provided" ∧
    authenticateUser vfExpired (some "Bearer x.y.z") =
      .reject 401 "Invalid Token" VerifyError.expired.message :=
  ⟨http_status_outcomes.1 exampleDerive [] "John Doe" "john@example.com"
      "123456" "u1" 7 100 rfl,
   http_status_outcomes.2.1 exampleDerive [sampleUser] "John Doe"
      "john@example.com" "123456" "u2" 8 200 sampleUser rfl,
   http_status_outcomes.2.2.1 exampleDerive exampleMac [] "john@example.com"
      "123456" "k" 300 rfl,
   http_status_outcomes.2.2.2.1 exampleDerive exampleMac [sampleUser]
      "john@example.com" "wrong" "k" 300 sampleUser rfl rfl,
   http_status_outcomes.2.2.2.2.1 exampleVerifier,
   http_status_outcomes.2.2.2.2.2.1 exampleVerifier "Token xyz" (by decide),
   http_status_outcomes.2.2.2.2.2.2 vfExpired "Bearer x.y.z" .expired
      (by decide) rfl⟩

/-- Counterexample to C8: a successful profile retrieval for the stored
example user is a 200 response whose serialized document carries the
timestamp field "createdAt", a field outside the claimed exact set
of id, name and email. -/
theorem profile_not_exactly_three_fields :
    (getProfile [sampleUser] "u1").status = 200 ∧
    "createdAt" ∈ (getProfile [sampleUser] "u1").jsonKeys ∧
    "createdAt" ∉ (["id", "name", "email"] : List String) := by
  decide

/-- C8 as amended: a successful profile retrieval returns the authenticated
user's id, name and email together with the schema's timestamp metadata
(createdAt, updatedAt), and the response never contains the stored
credential hash. -/
theorem profile_success_fields (db : List UserRecord) (uid : String)
    (u : UserRecord) (hu : findById db uid = some u) :
    getProfile db uid =
      ⟨200, .fields [("id", u.id), ("name", u.name), ("email", u.email),
        ("createdAt", toString u.createdAt),
        ("updatedAt", toString u.updatedAt)]⟩ ∧
    "password" ∉ (getProfile db uid).jsonKeys := by
  have h1 : getProfile db uid =
      ⟨200, .fields [("id", u.id), ("name", u.name), ("email", u.email),
        ("createdAt", toString u.createdAt),
        ("updatedAt", toString u.updatedAt)]⟩ := by
    simp [getProfile, hu, userToJsonRaw, selectMinusPassword, toJSONTransform]
  refine ⟨h1, ?_⟩
  rw [h1]
  simp [Response.jsonKeys]

/-- Witness for the amended C8, at the stored example user. -/
theorem profile_success_fields_witness :
    getProfile [sampleUser] "u1" =
      ⟨200, .fields [("id", sampleUser.id), ("name", sampleUser.name),
        ("email", sampleUser.email),
        ("createdAt", toString sampleUser.createdAt),
        ("updatedAt", toString sampleUser.updatedAt)]⟩ ∧
    "password" ∉ (getProfile [sampleUser] "u1").jsonKeys :=
  profile_success_fields [sampleUser] "u1" sampleUser rfl

/-- The Token Verifier over wire strings, per §4.3: parse the compact token
encoding — failure is `Malformed` — then verify signature and expiry with
`jwtVerify`.  The parser of the three-segment base64url encoding is kept
abstract. -/
def mkVerifier (mac : Mac) (decode : String → Option Token) (secret : String)
    (now : Nat) : Verifier :=
  fun s =>
    match decode s with
    | none => .error .malformed
    | some t => jwtVerify mac t secret now

/-- C10: a request bearing a structurally valid, correctly signed, unexpired
token whose embedded user id matches no stored record passes the Access
Guard and receives 404 "User not found" from the profile controller — not
401: token authentication succeeds independently of whether the account
still exists. -/
theorem valid_token_unknown_user_404 (mac : Mac)
    (decode : String → Option Token) (secret : String) (now : Nat)
    (db : List UserRecord) (h : String) (t : Token) (p : Payload)
    (hpre : jsStartsWith h "Bearer " = true)
    (hdec : decode (bearerToken h) = some t)
    (hver : jwtVerify mac t secret now = .ok p)
    (hnone : findById db p.claim.id = none) :
    profileRoute (mkVerifier mac decode secret now) db (some h) =
      ⟨404, .message "User not found"⟩ ∧
    (profileRoute (mkVerifier mac decode secret now) db (some h)).status ≠
      401 := by
  have hok : mkVerifier mac decode secret now (bearerToken h) = .ok p := by
    simp [mkVerifier, hdec, hver]
  have heq : profileRoute (mkVerifier mac decode secret now) db (some h) =
      ⟨404, .message "User not found"⟩ := by
    simp [profileRoute, authenticateUser, hpre, hok, getProfile, hnone]
  exact ⟨heq, by rw [heq]; decide⟩

/-- A decoder accepting exactly the wire token "x.y.z", whose payload names a
user id stored in no database used below. -/
def ghostDecode : String → Option Token :=
  fun s =>
    if s = "x.y.z" then
      some ⟨⟨⟨"ghost", "ghost@example.com"⟩, 0, 3600⟩,
            exampleMac "k" ⟨⟨"ghost", "ghost@example.com"⟩, 0, 3600⟩⟩
    else none

/-- Witness for C10: the well-signed unexpired token for the unknown id
"ghost" reaches the controller and yields 404, not 401. -/
theorem valid_token_unknown_user_404_witness :
    profileRoute (mkVerifier exampleMac ghostDecode "k" 1) [sampleUser]
      (some "Bearer x.y.z") = ⟨404, .message "User not found"⟩ ∧
    (profileRoute (mkVerifier exampleMac ghostDecode "k" 1) [sampleUser]
      (some "Bearer x.y.z")).status ≠ 401 :=
  valid_token_unknown_user_404 exampleMac ghostDecode "k" 1 [sampleUser]
    "Bearer x.y.z"
    ⟨⟨⟨"ghost", "ghost@example.com"⟩, 0, 3600⟩,
     exampleMac "k" ⟨⟨"ghost", "ghost@example.com"⟩, 0, 3600⟩⟩
    ⟨⟨"ghost", "ghost@example.com"⟩, 0, 3600⟩
    (by decide) rfl rfl rfl
